import Mathlib

/-!
Verification development for the retrieval-and-learning engine of the
AI-Voice-Agent repository.  The Python sources under `app/clients` and
`app/services` are shallowly embedded: similarity scores are rationals,
fallible operations return `Except` or `Bool` exactly where the source
raises or swallows exceptions, and the Elasticsearch server is modelled
as an explicit store that the embedded client functions act on.
-/

namespace VoiceAgent

/-- Python `x or d` for an optional integer argument: `None` and `0` are
falsy, so both select the default `d` (`top_k = top_k or self.max_chunks`). -/
def pyOrNat : Option Nat → Nat → Nat
  | none, d => d
  | some v, d => if v = 0 then d else v

/-- Python `x or d` for an optional float argument: `None` and `0.0` are
falsy (`min_score = min_score or settings.min_similarity_score`). -/
def pyOrQ : Option ℚ → ℚ → ℚ
  | none, d => d
  | some v, d => if v = 0 then d else v

/-- Python `x or d` for an optional string argument: `None` and `""` are
falsy (`user_id or 'anon'`, `index_name or self.index_name`). -/
def pyOrStr : Option String → String → String
  | none, d => d
  | some v, d => if v = "" then d else v

/-- The fields of `app/config.py` `Settings` read by the embedded code.
Defaults are the ones declared in the source. -/
structure Settings where
  use_local_models : Bool
  embedding_dimension : Nat
  elasticsearch_index_name : String
  elasticsearch_index : Option String
  max_context_chunks : Nat
  min_similarity_score : ℚ
  openai_embedding_model : String
deriving Repr, DecidableEq

/-- Default values from `app/config.py`. -/
def defaultSettings : Settings :=
  { use_local_models := false
    embedding_dimension := 1536
    elasticsearch_index_name := "customer_care_kb"
    elasticsearch_index := none
    max_context_chunks := 5
    min_similarity_score := 7/10
    openai_embedding_model := "text-embedding-3-small" }

/-- `Settings.es_index` property: `self.elasticsearch_index or self.elasticsearch_index_name`. -/
def Settings.es_index (s : Settings) : String :=
  pyOrStr s.elasticsearch_index s.elasticsearch_index_name

/-- `LearningService.__init__`: `f"{settings.elasticsearch_index_name}_conversations"`. -/
def Settings.learning_index (s : Settings) : String :=
  s.elasticsearch_index_name ++ "_conversations"

/-! ## Elasticsearch server model

The engine talks to an external Elasticsearch server.  A document, as the
search endpoint sees it for one fixed query, is its id, text, optional
metadata source, and the similarity score the server computes for it
against that query (the scoring function itself lives in the server). -/

structure ScoredDoc where
  id : String
  score : ℚ
  text : String
  source : Option String
deriving Repr, DecidableEq

/-- Ranking order used by the server: higher score first. -/
def scoreGE (a b : ScoredDoc) : Prop := b.score ≤ a.score

instance : DecidableRel scoreGE := fun a b => inferInstanceAs (Decidable (b.score ≤ a.score))

instance : IsTotal ScoredDoc scoreGE := ⟨fun a b => le_total b.score a.score⟩

instance : IsTrans ScoredDoc scoreGE := ⟨fun _ _ _ h1 h2 => le_trans h2 h1⟩

/-- Server-side ranking: all candidate documents sorted by descending score. -/
def rankByScore (store : List ScoredDoc) : List ScoredDoc :=
  store.insertionSort scoreGE

/-- The body `ElasticsearchClient.vector_search` builds for the `_search`
endpoint: a `knn` clause `{field, query_vector, k, num_candidates}` plus a
top-level `min_score`, sent with `size=top_k`. -/
structure KnnQuery where
  field : String
  k : Nat
  num_candidates : Nat
  min_score : ℚ
  size : Nat
deriving Repr, DecidableEq

/-- Semantics of the server's knn search: gather `num_candidates`
candidates, keep the `k` nearest, drop hits scoring below `min_score`,
and return at most `size` hits, ranked by descending score. -/
def esKnnSearch (store : List ScoredDoc) (q : KnnQuery) : List ScoredDoc :=
  ((((rankByScore store).take q.num_candidates).take q.k).filter
    (fun d => q.min_score ≤ d.score)).take q.size

/-- Semantics of the server's query search used by `keyword_search`: the
multi-field fuzzy match scores every document; the response holds the
top `size` hits by descending score. -/
def esQuerySearch (store : List ScoredDoc) (size : Nat) : List ScoredDoc :=
  (rankByScore store).take size

/-- One entry of the result list both search methods return:
`{"id": ..., "score": ..., "text": ..., "metadata": ...}`. -/
structure SearchResult where
  id : String
  score : ℚ
  text : String
  source : Option String
deriving Repr, DecidableEq

def toSearchResult (d : ScoredDoc) : SearchResult :=
  { id := d.id, score := d.score, text := d.text, source := d.source }

namespace ElasticsearchClient

/-- `ElasticsearchClient.vector_search` lines 186-196: the effective
`min_score` is `min_score or settings.min_similarity_score` and the knn
clause uses `k = top_k`, `num_candidates = top_k * 10`, `size = top_k`. -/
def vectorSearchQuery (sett : Settings) (top_k : Nat) (min_score : Option ℚ) : KnnQuery :=
  { field := "embedding"
    k := top_k
    num_candidates := top_k * 10
    min_score := pyOrQ min_score sett.min_similarity_score
    size := top_k }

/-- `ElasticsearchClient.vector_search`: build the knn query, run it
against the store, and map each hit to a result record. -/
def vector_search (sett : Settings) (store : List ScoredDoc) (top_k : Nat)
    (min_score : Option ℚ) : List SearchResult :=
  (esKnnSearch store (vectorSearchQuery sett top_k min_score)).map toSearchResult

/-- `ElasticsearchClient.keyword_search`: multi-match query sent with
`size=top_k`; each hit mapped to the same result record shape. -/
def keyword_search (store : List ScoredDoc) (top_k : Nat) : List SearchResult :=
  (esQuerySearch store top_k).map toSearchResult

/-! ## bulk_index -/

/-- One action handed to `elasticsearch.helpers.async_bulk`; `valid`
abstracts whether the server accepts the document (a malformed document
is rejected per-action by the bulk endpoint). -/
structure BulkDoc where
  id : String
  valid : Bool
deriving Repr, DecidableEq

/-- Semantics of `elasticsearch.helpers.async_bulk` called, as in
`bulk_index`, with its default keyword arguments
(`stats_only=False`, `raise_on_error=True`): every action is attempted,
successes are counted, per-action errors are collected, and after the
whole batch is processed a `BulkIndexError` is raised if any action
failed; only an error-free batch returns `(success_count, [])`. -/
def async_bulk (actions : List BulkDoc) : Except String (Nat × List String) :=
  let succ := (actions.filter (fun a => a.valid)).length
  let errs := (actions.filter (fun a => !a.valid)).map (fun a => a.id)
  if errs.isEmpty then Except.ok (succ, errs) else Except.error "BulkIndexError"

/-- The dictionary `bulk_index` returns on its non-raising path. -/
structure BulkResult where
  success : Nat
  failed : List String
deriving Repr, DecidableEq

/-- `ElasticsearchClient.bulk_index` lines 118-137: forwards the actions
to `async_bulk` (default arguments) and re-raises any exception as
`ElasticsearchError("Bulk indexing failed: ...")`. -/
def bulk_index (documents : List BulkDoc) : Except String BulkResult :=
  match async_bulk documents with
  | Except.ok (succ, failed) => Except.ok { success := succ, failed := failed }
  | Except.error e => Except.error ("Bulk indexing failed: " ++ e)

end ElasticsearchClient

/-! ## Index schema lifecycle -/

/-- The parts of an index-creation body the embedded code chooses: the
dense-vector field dimensions (the knowledge-base mapping has one
`embedding` field, the conversation mapping has `question_embedding` and
`answer_embedding`), the similarity metric, shard/replica counts, and
whether `index.knn` is set. -/
structure IndexMapping where
  embedding_dims : Option Nat
  question_embedding_dims : Option Nat
  answer_embedding_dims : Option Nat
  similarity : String
  shards : Nat
  replicas : Nat
  knn : Bool
deriving Repr, DecidableEq

/-- The mapping `ElasticsearchClient.create_index` builds (lines 51-82):
a single `embedding` dense-vector field whose `dims` is
`settings.embedding_dimension`, cosine similarity, 1 shard, 0 replicas. -/
def kbIndexMapping (sett : Settings) : IndexMapping :=
  { embedding_dims := some sett.embedding_dimension
    question_embedding_dims := none
    answer_embedding_dims := none
    similarity := "cosine"
    shards := 1
    replicas := 0
    knn := false }

/-- The mapping `LearningService.ensure_learning_index` builds
(lines 24-60): `question_embedding` and `answer_embedding` dense-vector
fields, each with the literal `"dims": 1536`, cosine similarity,
1 shard, 0 replicas, `index.knn: True`. -/
def learningIndexMapping : IndexMapping :=
  { embedding_dims := none
    question_embedding_dims := some 1536
    answer_embedding_dims := some 1536
    similarity := "cosine"
    shards := 1
    replicas := 0
    knn := true }

/-- The server's view of which indices exist, with the mapping each was
created with. -/
abbrev IndexStore := List (String × IndexMapping)

def lookupIndex : IndexStore → String → Option IndexMapping
  | [], _ => none
  | (n, m) :: rest, name => if n = name then some m else lookupIndex rest name

/-- `ElasticsearchClient.create_index` lines 47-93 (the healthy-server
path): resolve the name via `index_name or self.index_name`, return
`True` without touching the server if the index already exists, and
otherwise create it with the knowledge-base mapping and return `True`. -/
def create_index (sett : Settings) (st : IndexStore) (index_name : Option String) :
    IndexStore × Bool :=
  let name := pyOrStr index_name sett.es_index
  if (lookupIndex st name).isSome then (st, true)
  else ((name, kbIndexMapping sett) :: st, true)

/-- `LearningService.ensure_learning_index` lines 62-74 (healthy-server
path): create the conversation index with the dual-vector mapping only
if it does not exist; return `True` either way. -/
def ensure_learning_index (sett : Settings) (st : IndexStore) : IndexStore × Bool :=
  if (lookupIndex st sett.learning_index).isSome then (st, true)
  else ((sett.learning_index, learningIndexMapping) :: st, true)

/-! ## Learning service documents and document store -/

/-- `metadata` object written by `LearningService.store_conversation`. -/
structure ConvMetadata where
  channel : String
  session_id : Option String
  language : String
  processing_time_ms : Option ℚ
deriving Repr, DecidableEq

/-- A conversation record as `store_conversation` writes it.
`feedback_updated_at` is not part of the document written at creation
time; Elasticsearch adds it dynamically when `update_feedback` merges
its partial doc, so it is `none` until such a merge happens. -/
structure ConvDoc where
  id : String
  question : String
  question_embedding : List ℚ
  answer : String
  answer_embedding : List ℚ
  user_id : Option String
  chat_id : Option String
  timestamp : String
  feedback : String
  context_used : Option String
  metadata : ConvMetadata
  feedback_updated_at : Option String
deriving Repr, DecidableEq

/-- `metadata` object written by `LearningService.promote_to_knowledge_base`. -/
structure KBMetadata where
  source : String
  doc_type : String
  product : String
  language : String
  created_at : String
  original_conversation_id : Option String
  promoted_at : Option String
deriving Repr, DecidableEq

/-- A knowledge-base passage as `promote_to_knowledge_base` writes it. -/
structure KBDoc where
  id : String
  text : String
  embedding : List ℚ
  metadata : KBMetadata
deriving Repr, DecidableEq

/-- A document stored in some index: conversation records and
knowledge-base passages are the two shapes the embedded services write. -/
inductive StoredDoc where
  | conv (d : ConvDoc)
  | kb (d : KBDoc)
deriving Repr, DecidableEq

/-- The server's document state, keyed by (index name, document id).
A write with an existing key overwrites the old document; the most
recent write is listed first, and lookup returns the first match. -/
abbrev DocStore := List ((String × String) × StoredDoc)

def lookupDoc : DocStore → String → String → Option StoredDoc
  | [], _, _ => none
  | (k, d) :: rest, idx, id => if k = (idx, id) then some d else lookupDoc rest idx id

/-- A per-document write (`client.index` / `index_document`): upsert by id. -/
def insertDoc (st : DocStore) (idx id : String) (d : StoredDoc) : DocStore :=
  ((idx, id), d) :: st

/-! ## Backend call traces

To state which collaborators an operation invokes (and with which
arguments), each embedded service operation also returns the ordered
list of backend calls it made. -/

inductive BackendCall where
  | embedText (text : String)
  | vectorSearch (top_k : Nat) (min_score : Option ℚ)
  | keywordSearch (top_k : Nat)
  | indexWrite (index : String) (id : String)
  | partialUpdate (index : String) (id : String)
deriving Repr, DecidableEq

/-- The external collaborators of `LearningService`: the embedding
provider (reached through `rag_service.generate_embedding`, which raises
on failure), the wall clock, and whether the server accepts writes. -/
structure LearnEnv where
  embed : String → Except String (List ℚ)
  now : String
  writeOk : Bool

namespace LearningService

/-- `LearningService.store_conversation` lines 76-133: embed the
question, embed the answer, build the record with `feedback: "neutral"`
and a `conv_{timestamp}_{user_id or 'anon'}` id, write it to the
conversation index, and return `True`; every exception along the way is
caught and turned into `False`.  Returns the call trace, the boolean
result, and the record when the write went through. -/
def store_conversation (sett : Settings) (env : LearnEnv)
    (question answer : String) (user_id chat_id context_used : Option String)
    (channel : String) (session_id : Option String)
    (processing_time_ms : Option ℚ) :
    List BackendCall × Bool × Option ConvDoc :=
  match env.embed question with
  | Except.error _ => ([BackendCall.embedText question], false, none)
  | Except.ok qe =>
    match env.embed answer with
    | Except.error _ =>
        ([BackendCall.embedText question, BackendCall.embedText answer], false, none)
    | Except.ok ae =>
      let doc_id := "conv_" ++ env.now ++ "_" ++ pyOrStr user_id "anon"
      let doc : ConvDoc :=
        { id := doc_id
          question := question
          question_embedding := qe
          answer := answer
          answer_embedding := ae
          user_id := user_id
          chat_id := chat_id
          timestamp := env.now
          feedback := "neutral"
          context_used := context_used
          metadata :=
            { channel := channel
              session_id := session_id
              language := "auto"
              processing_time_ms := processing_time_ms }
          feedback_updated_at := none }
      let trace := [BackendCall.embedText question, BackendCall.embedText answer,
                    BackendCall.indexWrite sett.learning_index doc_id]
      if env.writeOk then (trace, true, some doc) else (trace, false, none)

/-- `LearningService.update_feedback` lines 187-211: issue a partial
update merging `{"feedback": ..., "feedback_updated_at": now}` into the
document; Elasticsearch raises `NotFoundError` when the id does not
exist (no upsert is requested), which the except-block turns into
`False` with the store untouched.  The conversation index only ever
holds conversation records, so a non-`conv` document behaves like the
error path. -/
def update_feedback (sett : Settings) (now : String) (st : DocStore)
    (conversation_id feedback : String) : DocStore × Bool :=
  match lookupDoc st sett.learning_index conversation_id with
  | some (StoredDoc.conv conv) =>
      (insertDoc st sett.learning_index conversation_id
        (StoredDoc.conv { conv with feedback := feedback, feedback_updated_at := some now }),
       true)
  | _ => (st, false)

/-- `LearningService.promote_to_knowledge_base` lines 213-262: `get` the
conversation record (a missing id raises `NotFoundError`, caught into
`False`), synthesize a knowledge-base document with id
`"learned_" ++ conversation_id`, text `Q: ...\n\nA: ...`, the stored
question embedding, and a metadata back-reference, then write it to the
main knowledge-base index via `index_document`. -/
def promote_to_knowledge_base (sett : Settings) (now : String) (st : DocStore)
    (conversation_id : String) (doc_type product : String) : DocStore × Bool :=
  match lookupDoc st sett.learning_index conversation_id with
  | some (StoredDoc.conv conv) =>
      let kb_doc : KBDoc :=
        { id := "learned_" ++ conversation_id
          text := "Q: " ++ conv.question ++ "\n\nA: " ++ conv.answer
          embedding := conv.question_embedding
          metadata :=
            { source := "learned_from_conversations"
              doc_type := doc_type
              product := product
              language := "en"
              created_at := now
              original_conversation_id := some conversation_id
              promoted_at := some now } }
      (insertDoc st sett.es_index kb_doc.id (StoredDoc.kb kb_doc), true)
  | _ => (st, false)

end LearningService

/-! ## RAG service -/

/-- `app/models.py` `RetrievedDocument`: the uniform document shape
`retrieve_context` builds from either search mode's hits.  Only the
`source` metadata entry is consumed downstream (by `_format_context`),
so the embedding keeps that field of the metadata dict. -/
structure RetrievedDocument where
  id : String
  text : String
  score : ℚ
  source : Option String
deriving Repr, DecidableEq

/-- `app/models.py` `RAGContext`. -/
structure RAGContext where
  documents : List RetrievedDocument
  formatted_context : String
deriving Repr, DecidableEq

def toRetrievedDocument (r : SearchResult) : RetrievedDocument :=
  { id := r.id, text := r.text, score := r.score, source := r.source }

namespace RAGService

/-- The constructor-time facts `RAGService.__init__` inspects: the
`use_local_models` flag, whether `LocalEmbeddingService` imports and
loads, and the configured OpenAI API key (Python-falsy when absent or
empty). -/
structure InitEnv where
  use_local_models : Bool
  local_embedding_load : Except String Unit
  openai_api_key : Option String
deriving Repr

/-- The constructed service state that `retrieve_context` later reads:
`use_keyword_search` and `max_chunks` are assigned once in `__init__`
and never reassigned anywhere in the class. -/
structure Model where
  use_keyword_search : Bool
  max_chunks : Nat
  embedding_model : String
deriving Repr, DecidableEq

/-- `RAGService.__init__` lines 18-52: with local models, a successful
load selects embeddings (`use_keyword_search = False`) and a load
failure falls back to keyword search; without local models, a missing
(or empty, hence falsy) API key raises `ValueError`, otherwise OpenAI
embeddings are selected. -/
def init (sett : Settings) (env : InitEnv) : Except String Model :=
  if env.use_local_models then
    match env.local_embedding_load with
    | Except.ok _ =>
        Except.ok { use_keyword_search := false, max_chunks := sett.max_context_chunks,
                    embedding_model := "local" }
    | Except.error _ =>
        Except.ok { use_keyword_search := true, max_chunks := sett.max_context_chunks,
                    embedding_model := "none" }
  else
    if pyOrStr env.openai_api_key "" = "" then
      Except.error "OpenAI API key required when USE_LOCAL_MODELS=false"
    else
      Except.ok { use_keyword_search := false, max_chunks := sett.max_context_chunks,
                  embedding_model := sett.openai_embedding_model }

/-- Whether `__init__` was able to set up an embedding provider for this
environment: local models that loaded, or a (truthy) OpenAI key. -/
def providerAvailable (env : InitEnv) : Bool :=
  if env.use_local_models then
    match env.local_embedding_load with
    | Except.ok _ => true
    | Except.error _ => false
  else
    !(pyOrStr env.openai_api_key "" = "")

/-- The per-request collaborators of `retrieve_context`: the embedding
provider and the document store as the two search endpoints see it for
the current query. -/
structure Env where
  embed : String → Except String (List ℚ)
  vectorStore : List ScoredDoc
  keywordStore : List ScoredDoc

/-- `RAGService._format_context` lines 137-147: the no-context literal
for an empty list, otherwise numbered entries
`[i] {text} (Source: {source})` joined by blank lines. -/
def format_context (documents : List RetrievedDocument) : String :=
  if documents.isEmpty then "No relevant context available."
  else
    String.intercalate "\n\n"
      ((List.range documents.length).zip documents |>.map
        (fun p => "[" ++ toString (p.1 + 1) ++ "] " ++ p.2.text ++
          " (Source: " ++ (p.2.source.getD "unknown") ++ ")"))

def mkRAGContext (results : List SearchResult) : RAGContext :=
  let documents := results.map toRetrievedDocument
  { documents := documents, formatted_context := format_context documents }

/-- `RAGService.retrieve_context` lines 84-135: resolve
`top_k = top_k or self.max_chunks`; in keyword mode run
`keyword_search`, otherwise embed the query (an embedding failure makes
the whole call raise `RAGError`) and run `vector_search` with the given
`min_score`; convert the hits and format the context block.  Returns
the backend call trace alongside the result. -/
def retrieve_context (sett : Settings) (svc : Model) (env : Env) (query : String)
    (top_k : Option Nat) (min_score : Option ℚ) :
    List BackendCall × Except String RAGContext :=
  let topK := pyOrNat top_k svc.max_chunks
  if svc.use_keyword_search then
    let results := ElasticsearchClient.keyword_search env.keywordStore topK
    ([BackendCall.keywordSearch topK], Except.ok (mkRAGContext results))
  else
    match env.embed query with
    | Except.error e =>
        ([BackendCall.embedText query],
         Except.error ("Context retrieval failed: Embedding generation failed: " ++ e))
    | Except.ok _ =>
        let results := ElasticsearchClient.vector_search sett env.vectorStore topK min_score
        ([BackendCall.embedText query, BackendCall.vectorSearch topK min_score],
         Except.ok (mkRAGContext results))

end RAGService

/-! ## Helper lemmas -/

theorem learned_append_ne (s : String) : ("learned_" ++ s) ≠ s := by
  intro h
  have h2 : ("learned_" ++ s).length = s.length := by rw [h]
  rw [String.length_append] at h2
  have h3 : ("learned_" : String).length = 8 := rfl
  omega

theorem lookupIndex_cons_self (n : String) (m : IndexMapping) (st : IndexStore) :
    lookupIndex ((n, m) :: st) n = some m := by
  simp [lookupIndex]

/-! ## Claims -/

/-- A ten-document batch in which two documents are malformed (rejected
per-action by the bulk endpoint). -/
def c1Docs : List ElasticsearchClient.BulkDoc :=
  [⟨"d1", true⟩, ⟨"d2", true⟩, ⟨"d3", false⟩, ⟨"d4", true⟩, ⟨"d5", true⟩,
   ⟨"d6", false⟩, ⟨"d7", true⟩, ⟨"d8", true⟩, ⟨"d9", true⟩, ⟨"d10", true⟩]

/-- C1: bulk indexing is claimed to be best-effort, with a per-document
failure neither aborting the batch nor raising, and with success/failure
counts summing to the number of documents.  The code instead calls
`async_bulk` with its default `raise_on_error=True`: on the
ten-document batch with two malformed documents it raises
`ElasticsearchError` rather than returning `successCount=8,
failedCount=2`. -/
theorem C1_bulk_index_aborts_on_malformed_batch :
    ElasticsearchClient.bulk_index c1Docs =
      Except.error "Bulk indexing failed: BulkIndexError" ∧
    (c1Docs.filter (fun d => d.valid)).length = 8 ∧
    (c1Docs.filter (fun d => !d.valid)).length = 2 := by
  refine ⟨rfl, rfl, rfl⟩

/-- C4: index creation is idempotent — it returns `true`, repeating the
call on the resulting state is a no-op that again returns `true`, and
when the index already exists the call leaves the store (hence the
existing schema) entirely unchanged while still returning `true`. -/
theorem C4_create_index_idempotent (sett : Settings) (st : IndexStore)
    (index_name : Option String) :
    (create_index sett st index_name).2 = true ∧
    create_index sett (create_index sett st index_name).1 index_name =
      ((create_index sett st index_name).1, true) ∧
    (∀ m, lookupIndex st (pyOrStr index_name sett.es_index) = some m →
      create_index sett st index_name = (st, true)) := by
  set n := pyOrStr index_name sett.es_index with hn
  by_cases h : (lookupIndex st n).isSome
  · refine ⟨?_, ?_, ?_⟩
    · simp [create_index, ← hn, h]
    · simp [create_index, ← hn, h]
    · intro m hm
      simp [create_index, ← hn, h]
  · refine ⟨?_, ?_, ?_⟩
    · simp [create_index, ← hn, h]
    · simp [create_index, ← hn, h, lookupIndex_cons_self]
    · intro m hm
      rw [hm] at h
      simp at h

/-- Witness for C4 at a concrete state in which the index pre-exists. -/
theorem C4_witness :
    create_index defaultSettings
        [("customer_care_kb", kbIndexMapping defaultSettings)] none =
      ([("customer_care_kb", kbIndexMapping defaultSettings)], true) :=
  (C4_create_index_idempotent defaultSettings
      [("customer_care_kb", kbIndexMapping defaultSettings)] none).2.2
    (kbIndexMapping defaultSettings) (by decide)

theorem rankByScore_sorted (store : List ScoredDoc) :
    List.Pairwise scoreGE (rankByScore store) :=
  List.sorted_insertionSort scoreGE store

theorem esKnnSearch_sorted (store : List ScoredDoc) (q : KnnQuery) :
    List.Pairwise scoreGE (esKnnSearch store q) := by
  unfold esKnnSearch
  exact ((((rankByScore_sorted store).sublist (List.take_sublist _ _)).sublist
    (List.take_sublist _ _)).filter _).sublist (List.take_sublist _ _)

theorem esKnnSearch_min_score (store : List ScoredDoc) (q : KnnQuery) :
    ∀ d ∈ esKnnSearch store q, q.min_score ≤ d.score := by
  intro d hd
  unfold esKnnSearch at hd
  have h1 := List.mem_of_mem_take hd
  have h2 := (List.mem_filter.mp h1).2
  exact of_decide_eq_true h2

theorem esKnnSearch_length_le (store : List ScoredDoc) (q : KnnQuery) :
    (esKnnSearch store q).length ≤ q.size := by
  unfold esKnnSearch
  exact le_trans (Nat.le_of_eq (List.length_take _ _)) (Nat.min_le_left _ _)

/-- C2: `vector_search` requests `10 × topK` internal candidates,
returns at most `topK` hits sorted by non-increasing score, and when a
`minScore` is supplied no returned hit scores below it (the effective
floor is the supplied value, or the configured — non-negative — default
when the supplied value is the falsy `0`). -/
theorem C2_vector_search_contract (sett : Settings) (store : List ScoredDoc)
    (top_k : Nat) (min_score : Option ℚ) (_htk : 0 < top_k)
    (hms : 0 ≤ sett.min_similarity_score) :
    10 * top_k ≤ (ElasticsearchClient.vectorSearchQuery sett top_k min_score).num_candidates ∧
    (ElasticsearchClient.vector_search sett store top_k min_score).length ≤ top_k ∧
    List.Pairwise (fun a b : SearchResult => b.score ≤ a.score)
      (ElasticsearchClient.vector_search sett store top_k min_score) ∧
    (∀ ms, min_score = some ms →
      ∀ r ∈ ElasticsearchClient.vector_search sett store top_k min_score, ms ≤ r.score) := by
  refine ⟨?_, ?_, ?_, ?_⟩
  · simp [ElasticsearchClient.vectorSearchQuery, Nat.mul_comm]
  · rw [ElasticsearchClient.vector_search, List.length_map]
    exact esKnnSearch_length_le store _
  · rw [ElasticsearchClient.vector_search, List.pairwise_map]
    exact esKnnSearch_sorted store _
  · intro ms hmseq r hr
    rw [ElasticsearchClient.vector_search, List.mem_map] at hr
    obtain ⟨d, hd, hrd⟩ := hr
    have hscore := esKnnSearch_min_score store _ d hd
    have heff : ms ≤ (ElasticsearchClient.vectorSearchQuery sett top_k min_score).min_score := by
      rw [ElasticsearchClient.vectorSearchQuery, hmseq]
      by_cases hz : ms = 0
      · simp [pyOrQ, hz]
        exact hz ▸ hms
      · simp [pyOrQ, hz]
    rw [← hrd]
    exact le_trans heff hscore

/-- Witness for C2: a concrete three-document store searched with
`topK = 2` and `minScore = 1/2`. -/
theorem C2_witness :
    10 * 2 ≤ (ElasticsearchClient.vectorSearchQuery defaultSettings 2 (some (1/2))).num_candidates ∧
    (ElasticsearchClient.vector_search defaultSettings
        [⟨"a", 3/4, "ta", none⟩, ⟨"b", 1/4, "tb", none⟩, ⟨"c", 9/10, "tc", none⟩]
        2 (some (1/2))).length ≤ 2 ∧
    List.Pairwise (fun a b : SearchResult => b.score ≤ a.score)
      (ElasticsearchClient.vector_search defaultSettings
        [⟨"a", 3/4, "ta", none⟩, ⟨"b", 1/4, "tb", none⟩, ⟨"c", 9/10, "tc", none⟩]
        2 (some (1/2))) :=
  ⟨(C2_vector_search_contract defaultSettings
      [⟨"a", 3/4, "ta", none⟩, ⟨"b", 1/4, "tb", none⟩, ⟨"c", 9/10, "tc", none⟩]
      2 (some (1/2)) (by decide) (by norm_num [defaultSettings])).1,
   (C2_vector_search_contract defaultSettings
      [⟨"a", 3/4, "ta", none⟩, ⟨"b", 1/4, "tb", none⟩, ⟨"c", 9/10, "tc", none⟩]
      2 (some (1/2)) (by decide) (by norm_num [defaultSettings])).2.1,
   (C2_vector_search_contract defaultSettings
      [⟨"a", 3/4, "ta", none⟩, ⟨"b", 1/4, "tb", none⟩, ⟨"c", 9/10, "tc", none⟩]
      2 (some (1/2)) (by decide) (by norm_num [defaultSettings])).2.2.1⟩

/-- C3: when the underlying search has zero hits (an empty index),
`retrieve_context` does not raise: it returns an empty document list and
the literal no-context message as the formatted block.  In vector mode
the query embedding must succeed for the search to be reached at all. -/
theorem C3_retrieve_context_zero_hits (sett : Settings) (svc : RAGService.Model)
    (env : RAGService.Env) (query : String) (top_k : Option Nat) (min_score : Option ℚ)
    (hvec : env.vectorStore = []) (hkw : env.keywordStore = [])
    (hemb : svc.use_keyword_search = false → ∃ v, env.embed query = Except.ok v) :
    (RAGService.retrieve_context sett svc env query top_k min_score).2 =
      Except.ok { documents := [], formatted_context := "No relevant context available." } := by
  by_cases hm : svc.use_keyword_search
  · simp [RAGService.retrieve_context, hm, hkw, ElasticsearchClient.keyword_search,
      esQuerySearch, rankByScore, List.take_nil, RAGService.mkRAGContext,
      RAGService.format_context]
  · obtain ⟨v, hv⟩ := hemb (by simpa using hm)
    simp [RAGService.retrieve_context, hm, hv, hvec, ElasticsearchClient.vector_search,
      esKnnSearch, rankByScore, List.take_nil, RAGService.mkRAGContext,
      RAGService.format_context]

/-- Witness for C3: an empty store in keyword mode and in vector mode. -/
theorem C3_witness :
    (RAGService.retrieve_context defaultSettings
        { use_keyword_search := false, max_chunks := 5, embedding_model := "local" }
        { embed := fun _ => Except.ok [1], vectorStore := [], keywordStore := [] }
        "hello" none none).2 =
      Except.ok { documents := [], formatted_context := "No relevant context available." } :=
  C3_retrieve_context_zero_hits defaultSettings
    { use_keyword_search := false, max_chunks := 5, embedding_model := "local" }
    { embed := fun _ => Except.ok [1], vectorStore := [], keywordStore := [] }
    "hello" none none rfl rfl (fun _ => ⟨[1], rfl⟩)

/-- The texts sent to the embedding provider, in call order. -/
def embedTexts : List BackendCall → List String :=
  List.filterMap (fun c => match c with
    | BackendCall.embedText t => some t
    | _ => none)

/-- C5: `store_conversation` succeeds exactly when embedding the
question, embedding the answer, and the index write all succeed; it
never surfaces an error (its result is a plain boolean); a successful
run makes exactly two embedding calls — question then answer — and the
record it writes carries `feedback = "neutral"` and the two embeddings
as returned by the provider. -/
theorem C5_store_conversation_best_effort (sett : Settings) (env : LearnEnv)
    (question answer : String) (user_id chat_id context_used : Option String)
    (channel : String) (session_id : Option String) (processing_time_ms : Option ℚ) :
    ((LearningService.store_conversation sett env question answer user_id chat_id
        context_used channel session_id processing_time_ms).2.1 = true ↔
      (∃ qe, env.embed question = Except.ok qe) ∧
      (∃ ae, env.embed answer = Except.ok ae) ∧ env.writeOk = true) ∧
    (∀ d, (LearningService.store_conversation sett env question answer user_id chat_id
        context_used channel session_id processing_time_ms).2.2 = some d →
      d.feedback = "neutral" ∧
      env.embed question = Except.ok d.question_embedding ∧
      env.embed answer = Except.ok d.answer_embedding) ∧
    ((LearningService.store_conversation sett env question answer user_id chat_id
        context_used channel session_id processing_time_ms).2.1 = true →
      embedTexts (LearningService.store_conversation sett env question answer user_id chat_id
        context_used channel session_id processing_time_ms).1 = [question, answer]) := by
  cases hq : env.embed question with
  | error e =>
      simp [LearningService.store_conversation, hq, embedTexts]
  | ok qe =>
      cases ha : env.embed answer with
      | error e2 =>
          simp [LearningService.store_conversation, hq, ha, embedTexts]
      | ok ae =>
          cases hw : env.writeOk with
          | false =>
              simp [LearningService.store_conversation, hq, ha, hw, embedTexts]
          | true =>
              refine ⟨by simp [LearningService.store_conversation, hq, ha, hw], ?_, ?_⟩
              · intro d hd
                simp [LearningService.store_conversation, hq, ha, hw] at hd
                subst hd
                exact ⟨rfl, rfl, rfl⟩
              · intro _
                simp [LearningService.store_conversation, hq, ha, hw, embedTexts]

/-- Witness for C5: in a concrete healthy environment the store
succeeds, and the trace shows the two embedding calls in order. -/
theorem C5_witness :
    (LearningService.store_conversation defaultSettings
        { embed := fun _ => Except.ok [2], now := "t0", writeOk := true }
        "What are your hours?" "9-5 Mon-Fri" none none none "telegram" none none).2.1 = true ∧
    embedTexts (LearningService.store_conversation defaultSettings
        { embed := fun _ => Except.ok [2], now := "t0", writeOk := true }
        "What are your hours?" "9-5 Mon-Fri" none none none "telegram" none none).1 =
      ["What are your hours?", "9-5 Mon-Fri"] := by
  have h := C5_store_conversation_best_effort defaultSettings
    { embed := fun _ => Except.ok [2], now := "t0", writeOk := true }
    "What are your hours?" "9-5 Mon-Fri" none none none "telegram" none none
  have hok := h.1.mpr ⟨⟨[2], rfl⟩, ⟨[2], rfl⟩, rfl⟩
  exact ⟨hok, h.2.2 hok⟩

/-- C6: promoting a stored conversation writes a knowledge-base passage
whose id is `"learned_" ++ convId`, whose text combines question and
answer, whose embedding is the conversation's question embedding reused
as stored, and whose metadata back-references the conversation id; the
source conversation record is left unchanged. -/
theorem C6_promote_creates_learned_passage (sett : Settings) (now : String)
    (st : DocStore) (convId doc_type product : String) (conv : ConvDoc)
    (h : lookupDoc st sett.learning_index convId = some (StoredDoc.conv conv)) :
    (LearningService.promote_to_knowledge_base sett now st convId doc_type product).2 = true ∧
    lookupDoc (LearningService.promote_to_knowledge_base sett now st convId doc_type product).1
        sett.es_index ("learned_" ++ convId) =
      some (StoredDoc.kb
        { id := "learned_" ++ convId
          text := "Q: " ++ conv.question ++ "\n\nA: " ++ conv.answer
          embedding := conv.question_embedding
          metadata :=
            { source := "learned_from_conversations"
              doc_type := doc_type
              product := product
              language := "en"
              created_at := now
              original_conversation_id := some convId
              promoted_at := some now } }) ∧
    lookupDoc (LearningService.promote_to_knowledge_base sett now st convId doc_type product).1
        sett.learning_index convId = some (StoredDoc.conv conv) := by
  refine ⟨?_, ?_, ?_⟩
  · simp [LearningService.promote_to_knowledge_base, h]
  · simp [LearningService.promote_to_knowledge_base, h, insertDoc, lookupDoc]
  · simp [LearningService.promote_to_knowledge_base, h, insertDoc, lookupDoc,
      Prod.mk.injEq, learned_append_ne convId]

/-- A concrete conversation record and store used by the C6 witness. -/
def c6Conv : ConvDoc :=
  { id := "c1"
    question := "What are your hours?"
    question_embedding := [1, 2]
    answer := "9-5"
    answer_embedding := [3]
    user_id := none
    chat_id := none
    timestamp := "t0"
    feedback := "positive"
    context_used := none
    metadata := { channel := "telegram", session_id := none, language := "auto",
                  processing_time_ms := none }
    feedback_updated_at := none }

def c6Store : DocStore := [(("customer_care_kb_conversations", "c1"), StoredDoc.conv c6Conv)]

/-- Witness for C6 at the concrete store `c6Store`. -/
theorem C6_witness :
    (LearningService.promote_to_knowledge_base defaultSettings "t1" c6Store "c1"
        "learned_faq" "general").2 = true ∧
    lookupDoc (LearningService.promote_to_knowledge_base defaultSettings "t1" c6Store "c1"
        "learned_faq" "general").1 defaultSettings.es_index ("learned_" ++ "c1") =
      some (StoredDoc.kb
        { id := "learned_" ++ "c1"
          text := "Q: " ++ c6Conv.question ++ "\n\nA: " ++ c6Conv.answer
          embedding := c6Conv.question_embedding
          metadata :=
            { source := "learned_from_conversations"
              doc_type := "learned_faq"
              product := "general"
              language := "en"
              created_at := "t1"
              original_conversation_id := some "c1"
              promoted_at := some "t1" } }) ∧
    lookupDoc (LearningService.promote_to_knowledge_base defaultSettings "t1" c6Store "c1"
        "learned_faq" "general").1 defaultSettings.learning_index "c1" =
      some (StoredDoc.conv c6Conv) :=
  C6_promote_creates_learned_passage defaultSettings "t1" c6Store "c1"
    "learned_faq" "general" c6Conv (by decide)

/-- A concrete conversation record and store used for C7. -/
def c7Conv : ConvDoc :=
  { id := "c1"
    question := "Q1"
    question_embedding := [1]
    answer := "A1"
    answer_embedding := [1]
    user_id := none
    chat_id := none
    timestamp := "t0"
    feedback := "neutral"
    context_used := none
    metadata := { channel := "telegram", session_id := none, language := "auto",
                  processing_time_ms := none }
    feedback_updated_at := none }

def c7Store : DocStore := [(("customer_care_kb_conversations", "c1"), StoredDoc.conv c7Conv)]

/-- C7 counterexample: `update_feedback` does not update only the
`feedback` field — on the concrete record `c7Conv` the resulting
document also carries a freshly stamped `feedback_updated_at`, so it
differs from the original record with just its feedback replaced. -/
theorem C7_counterexample :
    lookupDoc (LearningService.update_feedback defaultSettings "t1" c7Store "c1" "positive").1
        defaultSettings.learning_index "c1" ≠
      some (StoredDoc.conv { c7Conv with feedback := "positive" }) := by
  decide

/-- C7 (amended): for a non-existent conversation id `update_feedback`
reports failure and leaves the store untouched (in particular it creates
no record); for an existing id it returns `true` and rewrites the record
with the new feedback value plus a `feedback_updated_at` timestamp,
changing nothing else in the record's siblings: every other (index, id)
key still resolves to exactly what it did before. -/
theorem C7_update_feedback_amended (sett : Settings) (now : String) (st : DocStore)
    (convId fb : String) :
    (lookupDoc st sett.learning_index convId = none →
      LearningService.update_feedback sett now st convId fb = (st, false)) ∧
    (∀ conv, lookupDoc st sett.learning_index convId = some (StoredDoc.conv conv) →
      (LearningService.update_feedback sett now st convId fb).2 = true ∧
      lookupDoc (LearningService.update_feedback sett now st convId fb).1
          sett.learning_index convId =
        some (StoredDoc.conv { conv with feedback := fb, feedback_updated_at := some now }) ∧
      ∀ j b, (j, b) ≠ (sett.learning_index, convId) →
        lookupDoc (LearningService.update_feedback sett now st convId fb).1 j b =
          lookupDoc st j b) := by
  constructor
  · intro hnone
    simp [LearningService.update_feedback, hnone]
  · intro conv hconv
    refine ⟨?_, ?_, ?_⟩
    · simp [LearningService.update_feedback, hconv]
    · simp [LearningService.update_feedback, hconv, insertDoc, lookupDoc]
    · intro j b hjb
      simp only [LearningService.update_feedback, hconv, insertDoc, lookupDoc]
      rw [if_neg (fun he => hjb he.symm)]

/-- Witness for C7 at the concrete store `c7Store`. -/
theorem C7_witness :
    (LearningService.update_feedback defaultSettings "t1" c7Store "c1" "positive").2 = true ∧
    lookupDoc (LearningService.update_feedback defaultSettings "t1" c7Store "c1" "positive").1
        defaultSettings.learning_index "c1" =
      some (StoredDoc.conv
        { c7Conv with feedback := "positive", feedback_updated_at := some "t1" }) := by
  have h := (C7_update_feedback_amended defaultSettings "t1" c7Store "c1" "positive").2
    c7Conv (by decide)
  exact ⟨h.1, h.2.1⟩

/-- C8: the keyword-vs-vector choice is fixed when the service is
constructed.  A constructed service has `use_keyword_search = false`
exactly when an embedding provider was available at construction, and
`retrieve_context` dispatches on that immutable flag alone: in vector
mode it embeds the query and issues a vector search (never a keyword
search, whatever the request), and in keyword mode it issues exactly a
keyword search. -/
theorem C8_search_mode_fixed_at_construction (sett : Settings)
    (ienv : RAGService.InitEnv) (svc : RAGService.Model)
    (h : RAGService.init sett ienv = Except.ok svc) :
    (svc.use_keyword_search = false ↔ RAGService.providerAvailable ienv = true) ∧
    (∀ (env : RAGService.Env) (q : String) (top_k : Option Nat) (min_score : Option ℚ),
      (svc.use_keyword_search = false →
        (∀ v, env.embed q = Except.ok v →
          (RAGService.retrieve_context sett svc env q top_k min_score).1 =
            [BackendCall.embedText q,
             BackendCall.vectorSearch (pyOrNat top_k svc.max_chunks) min_score]) ∧
        (∀ k, BackendCall.keywordSearch k ∉
          (RAGService.retrieve_context sett svc env q top_k min_score).1)) ∧
      (svc.use_keyword_search = true →
        (RAGService.retrieve_context sett svc env q top_k min_score).1 =
          [BackendCall.keywordSearch (pyOrNat top_k svc.max_chunks)])) := by
  constructor
  · unfold RAGService.init at h
    unfold RAGService.providerAvailable
    cases hu : ienv.use_local_models with
    | true =>
        rw [hu] at h
        cases hl : ienv.local_embedding_load with
        | ok u =>
            rw [hl] at h
            simp at h
            simp [← h]
        | error e =>
            rw [hl] at h
            simp at h
            simp [← h]
    | false =>
        rw [hu] at h
        simp only [Bool.false_eq_true, if_false] at h
        by_cases hk : pyOrStr ienv.openai_api_key "" = ""
        · rw [if_pos hk] at h
          exact absurd h (by simp)
        · rw [if_neg hk] at h
          simp at h
          simp [← h, hk]
  · intro env q top_k min_score
    constructor
    · intro hkw
      constructor
      · intro v hv
        simp [RAGService.retrieve_context, hkw, hv]
      · intro k
        cases he : env.embed q with
        | error e => simp [RAGService.retrieve_context, hkw, he]
        | ok v => simp [RAGService.retrieve_context, hkw, he]
    · intro hkw
      simp [RAGService.retrieve_context, hkw]

/-- Witness for C8: a local-models environment whose model loads, so the
engine is constructed in vector mode and a call embeds then searches. -/
theorem C8_witness :
    ({ use_keyword_search := false, max_chunks := 5,
       embedding_model := "local" } : RAGService.Model).use_keyword_search = false ∧
    (RAGService.retrieve_context defaultSettings
        { use_keyword_search := false, max_chunks := 5, embedding_model := "local" }
        { embed := fun _ => Except.ok [1], vectorStore := [], keywordStore := [] }
        "hi" none none).1 =
      [BackendCall.embedText "hi", BackendCall.vectorSearch (pyOrNat none 5) none] := by
  have h := C8_search_mode_fixed_at_construction defaultSettings
    { use_local_models := true, local_embedding_load := Except.ok (), openai_api_key := none }
    { use_keyword_search := false, max_chunks := 5, embedding_model := "local" }
    (by rfl)
  exact ⟨rfl,
    ((h.2 { embed := fun _ => Except.ok [1], vectorStore := [], keywordStore := [] }
        "hi" none none).1 rfl).1 [1] rfl⟩

/-- Shared spec of the record a successful `store_conversation` writes:
neutral feedback and the two embeddings exactly as the provider returned
them. -/
theorem store_conversation_doc_spec (sett : Settings) (env : LearnEnv)
    (question answer : String) (user_id chat_id context_used : Option String)
    (channel : String) (session_id : Option String) (processing_time_ms : Option ℚ)
    (d : ConvDoc)
    (hd : (LearningService.store_conversation sett env question answer user_id chat_id
        context_used channel session_id processing_time_ms).2.2 = some d) :
    d.feedback = "neutral" ∧
    env.embed question = Except.ok d.question_embedding ∧
    env.embed answer = Except.ok d.answer_embedding := by
  cases hq : env.embed question with
  | error e => simp [LearningService.store_conversation, hq] at hd
  | ok qe =>
      cases ha : env.embed answer with
      | error e2 => simp [LearningService.store_conversation, hq, ha] at hd
      | ok ae =>
          cases hw : env.writeOk with
          | false => simp [LearningService.store_conversation, hq, ha, hw] at hd
          | true =>
              simp [LearningService.store_conversation, hq, ha, hw] at hd
              subst hd
              exact ⟨rfl, rfl, rfl⟩

/-- C9: the conversation index schema hard-codes 1536 dimensions for
both dense-vector fields, independently of the configured embedding
dimension, while the knowledge-base index uses the configured value; so
with a 384-dimensional provider the embeddings `store_conversation`
writes disagree with the conversation index schema. -/
theorem C9_learning_index_dims_mismatch (sett : Settings) (env : LearnEnv)
    (hdim : ∀ t v, env.embed t = Except.ok v → v.length = sett.embedding_dimension)
    (h384 : sett.embedding_dimension = 384)
    (question answer : String) (user_id chat_id context_used : Option String)
    (channel : String) (session_id : Option String) (processing_time_ms : Option ℚ)
    (d : ConvDoc)
    (hd : (LearningService.store_conversation sett env question answer user_id chat_id
        context_used channel session_id processing_time_ms).2.2 = some d) :
    learningIndexMapping.question_embedding_dims = some 1536 ∧
    learningIndexMapping.answer_embedding_dims = some 1536 ∧
    (ensure_learning_index sett []).1 = [(sett.learning_index, learningIndexMapping)] ∧
    (kbIndexMapping sett).embedding_dims = some sett.embedding_dimension ∧
    d.question_embedding.length = 384 ∧
    d.answer_embedding.length = 384 ∧
    learningIndexMapping.question_embedding_dims ≠ some d.question_embedding.length ∧
    learningIndexMapping.answer_embedding_dims ≠ some d.answer_embedding.length := by
  obtain ⟨-, hqe, hae⟩ := store_conversation_doc_spec sett env question answer user_id
    chat_id context_used channel session_id processing_time_ms d hd
  have hql : d.question_embedding.length = 384 := h384 ▸ hdim question _ hqe
  have hal : d.answer_embedding.length = 384 := h384 ▸ hdim answer _ hae
  refine ⟨rfl, rfl, ?_, rfl, hql, hal, ?_, ?_⟩
  · simp [ensure_learning_index, lookupIndex]
  · rw [hql]; decide
  · rw [hal]; decide

/-- Settings, environment and expected record for the C9 witness: a
384-dimensional (local) embedding configuration. -/
def c9Settings : Settings :=
  { defaultSettings with use_local_models := true, embedding_dimension := 384 }

def c9Env : LearnEnv :=
  { embed := fun _ => Except.ok (List.replicate 384 0), now := "t0", writeOk := true }

def c9Doc : ConvDoc :=
  { id := "conv_" ++ "t0" ++ "_" ++ "anon"
    question := "Q1"
    question_embedding := List.replicate 384 0
    answer := "A1"
    answer_embedding := List.replicate 384 0
    user_id := none
    chat_id := none
    timestamp := "t0"
    feedback := "neutral"
    context_used := none
    metadata := { channel := "telegram", session_id := none, language := "auto",
                  processing_time_ms := none }
    feedback_updated_at := none }

/-- Witness for C9: the concrete 384-dimensional environment. -/
theorem C9_witness :
    learningIndexMapping.question_embedding_dims = some 1536 ∧
    learningIndexMapping.answer_embedding_dims = some 1536 ∧
    (ensure_learning_index c9Settings []).1 =
      [(c9Settings.learning_index, learningIndexMapping)] ∧
    (kbIndexMapping c9Settings).embedding_dims = some c9Settings.embedding_dimension ∧
    c9Doc.question_embedding.length = 384 ∧
    c9Doc.answer_embedding.length = 384 ∧
    learningIndexMapping.question_embedding_dims ≠ some c9Doc.question_embedding.length ∧
    learningIndexMapping.answer_embedding_dims ≠ some c9Doc.answer_embedding.length :=
  C9_learning_index_dims_mismatch c9Settings c9Env
    (by
      intro t v hv
      have hv2 : Except.ok (List.replicate 384 (0 : ℚ)) = Except.ok v := hv
      rw [← Except.ok.inj hv2, List.length_replicate]
      rfl)
    rfl "Q1" "A1" none none none "telegram" none none c9Doc rfl

/-- C10: a supplied zero is not honored for the retrieval parameters —
`retrieve_context` called with `top_k = 0` issues the search with the
configured `max_chunks` instead, and `vector_search` given
`min_score = 0` (or no `min_score`) uses the configured similarity
floor, both through Python falsy-`or` coercion. -/
theorem C10_zero_not_honored (sett : Settings) (svc : RAGService.Model)
    (env : RAGService.Env) (q : String) (min_score : Option ℚ) (top_k : Nat)
    (v : List ℚ) (hkw : svc.use_keyword_search = false)
    (hemb : env.embed q = Except.ok v) :
    (RAGService.retrieve_context sett svc env q (some 0) min_score).1 =
      [BackendCall.embedText q, BackendCall.vectorSearch svc.max_chunks min_score] ∧
    (ElasticsearchClient.vectorSearchQuery sett top_k (some 0)).min_score =
      sett.min_similarity_score ∧
    (ElasticsearchClient.vectorSearchQuery sett top_k none).min_score =
      sett.min_similarity_score ∧
    pyOrNat (some 0) svc.max_chunks = svc.max_chunks := by
  refine ⟨?_, ?_, ?_, ?_⟩
  · simp [RAGService.retrieve_context, hkw, hemb, pyOrNat]
  · simp [ElasticsearchClient.vectorSearchQuery, pyOrQ]
  · simp [ElasticsearchClient.vectorSearchQuery, pyOrQ]
  · simp [pyOrNat]

/-- Witness for C10 at a concrete vector-mode service with
`max_chunks = 5`. -/
theorem C10_witness :
    (RAGService.retrieve_context defaultSettings
        { use_keyword_search := false, max_chunks := 5, embedding_model := "local" }
        { embed := fun _ => Except.ok [1], vectorStore := [], keywordStore := [] }
        "hi" (some 0) none).1 =
      [BackendCall.embedText "hi", BackendCall.vectorSearch 5 none] ∧
    (ElasticsearchClient.vectorSearchQuery defaultSettings 3 (some 0)).min_score =
      defaultSettings.min_similarity_score ∧
    (ElasticsearchClient.vectorSearchQuery defaultSettings 3 none).min_score =
      defaultSettings.min_similarity_score ∧
    pyOrNat (some 0) 5 = 5 :=
  C10_zero_not_honored defaultSettings
    { use_keyword_search := false, max_chunks := 5, embedding_model := "local" }
    { embed := fun _ => Except.ok [1], vectorStore := [], keywordStore := [] }
    "hi" none 3 [1] rfl rfl

end VoiceAgent
